import Mathlib

/-!
Verification of the goplay browser-automation core against its specification.

The development shallowly embeds the session lifecycle and coordinate-mapping
engine of the repository:

* `goInt`, `Size`, `DOMRect`, `Window`, `setupCoordsWindow`, `getIntCoordinates`,
  `getCoords` embed the pure geometry code (`GetIntCoordinates`, `getCoords`,
  `setupCoords` in `src/chrome.go`, `src/chrome/chrome.go`,
  `src/pkg/chrome/chrome.go`). Go `float64` measurements are modelled as
  rationals (all values handled by the program and the spec's scenarios are
  exactly representable), and Go's `int(f)` conversion as truncation toward
  zero.

* The effectful operations (`Start`, `Close`, `Navigate`, `Evaluate`) are
  embedded as functions over explicit environments that record the responses
  of the external collaborators (process launcher, DevTools transport), and
  they return a trace of the externally visible steps next to their result, so
  ordering and no-retry properties can be stated.

* The process-wide debugging-port reservation (`_port` in `src/chrome.go`) is
  modelled as explicit state threaded through a list of operations.
-/

namespace Goplay

/-- Go `int(f)` conversion applied to a rational measurement: truncation toward
zero, as performed by `int(...)` in `GetIntCoordinates`. -/
def goInt (q : ℚ) : ℤ := Int.tdiv q.num (q.den : ℤ)

/-- Viewport or screen size as decoded from the two calibration script
evaluations (`size` in `src/chrome.go`, `WindowSize` / `ScreenSize` in
`src/chrome/chrome.go`). -/
structure Size where
  Width : ℚ
  Height : ℚ

/-- DOM element rectangle in viewport coordinates (`domRect` / `DOMRect`). -/
structure DOMRect where
  X : ℚ
  Y : ℚ
  Width : ℚ
  Height : ℚ

/-- Calibrated screen bounds (`window` in `src/chrome.go`; the flattened
`Top`/`Bottom`/`Left`/`Right` fields of `Browser` in `src/chrome/chrome.go`). -/
structure Window where
  Top : ℚ
  Bottom : ℚ
  Left : ℚ
  Right : ℚ

/-- Bounds computed by calibration from the screen size `s` and the window
inner size `w` (`src/chrome.go` lines 227-230, `src/chrome/chrome.go` lines
145-154): `Top = s.Height - w.Height` (the deadzone), `Bottom = s.Height`,
`Left = 0`, `Right = s.Width`. -/
def setupCoordsWindow (s w : Size) : Window :=
  { Top := s.Height - w.Height
    Bottom := s.Height
    Left := 0
    Right := s.Width }

/-- Shallow embedding of `GetIntCoordinates` (`src/chrome/chrome.go` lines
222-236; the identical function is at `src/pkg/chrome/chrome.go` lines
253-267). The element center is computed, the deadzone `b.Top` is added to the
vertical component, both coordinates and the bounds are converted with Go's
truncating `int(...)`, and the truncated values are compared. The error
messages are the exact strings built by `fmt.Errorf` in the source. -/
def getIntCoordinates (b : Window) (rect : DOMRect) : Except String (ℤ × ℤ) :=
  let x := goInt (rect.X + rect.Width / 2)
  let y := goInt (rect.Y + rect.Height / 2 + b.Top)
  if y < goInt b.Top ∨ goInt b.Bottom < y then
    Except.error "y coordinate is not between the top and bottom of the screen"
  else if x < goInt b.Left ∨ goInt b.Right < x then
    Except.error "x coordinate is not between the left and right of the screen"
  else
    Except.ok (x, y)

/-- Shallow embedding of `Browser.getCoords` (`src/chrome.go` lines 281-284):
the floating-point element center with the deadzone added to the vertical
component. -/
def getCoords (b : Window) (rect : DOMRect) : ℚ × ℚ :=
  (rect.X + rect.Width / 2, rect.Y + rect.Height / 2 + b.Top)

/-- Modelled from the spec (§4.4): `ElementCenter(rect) = (rect.x +
rect.width/2, rect.y + rect.height/2)` in viewport space. This is the spec-side
comparator for the refinement claim about the element-center computation; the
code-side definitions are `getCoords` and `getIntCoordinates`. -/
def specElementCenter (rect : DOMRect) : ℚ × ℚ :=
  (rect.X + rect.Width / 2, rect.Y + rect.Height / 2)

/-- Responses of the transport for one `Navigate` call: the subscription to the
load-event stream (`Page.LoadEventFired`), the navigation command
(`Page.Navigate`), and the blocking receive on the stream (`Recv`). An `error`
in `recv` models the event stream closing before a load event fires. -/
structure NavEnv where
  subscribe : Except String Unit
  navCmd : Except String Unit
  recv : Except String Unit

/-- Externally visible steps of a `Navigate` call, in order of occurrence. -/
inductive NavStep where
  | subscribed
  | commandIssued
  | loadReceived
  | unsubscribed
deriving DecidableEq

/-- Shallow embedding of `Browser.Navigate` (`src/chrome.go` lines 156-175;
identically `src/chrome/chrome.go` lines 239-258): subscribe to the load-event
stream, then issue the navigation command, then block for one load event, then
close the subscription. Each failing step returns its error immediately; the
trace records which steps actually happened (`loadReceived` appears only when
the receive succeeded, `unsubscribed` only on the success path, as in the
source where `loadEventFired.Close()` is reached only after a successful
`Recv`). -/
def navigateRun (env : NavEnv) : List NavStep × Except String Unit :=
  match env.subscribe with
  | Except.error e => ([], Except.error e)
  | Except.ok _ =>
    match env.navCmd with
    | Except.error e => ([NavStep.subscribed, NavStep.commandIssued], Except.error e)
    | Except.ok _ =>
      match env.recv with
      | Except.error e => ([NavStep.subscribed, NavStep.commandIssued], Except.error e)
      | Except.ok _ =>
        ([NavStep.subscribed, NavStep.commandIssued, NavStep.loadReceived,
          NavStep.unsubscribed], Except.ok ())

/-- JSON value carried in `res.Result.Value` of a CDP `Runtime.Evaluate`
reply. When the remote execution throws, the protocol reply carries the
exception data rather than a JSON string result, so at this interface a remote
throw appears as a transport error or as a non-string value. -/
inductive JsonValue where
  | jnull
  | jbool (b : Bool)
  | jnum (q : ℚ)
  | jstr (s : String)
  | jarr (elems : List JsonValue)
  | jobj (fields : List (String × JsonValue))

/-- Go `json.Unmarshal(raw, &s)` for `s : string`: succeeds exactly when the
raw value is a JSON string (the error text is modelled; the source surfaces
whatever message `encoding/json` produces). -/
def unmarshalString : JsonValue → Except String String
  | JsonValue.jstr s => Except.ok s
  | _ => Except.error "json: cannot unmarshal value into Go value of type string"

/-- Response of the transport for one `Runtime.Evaluate` command. -/
structure EvalEnv where
  reply : Except String JsonValue

/-- Shallow embedding of `Browser.Evaluate` (`src/chrome.go` lines 178-193;
identically `src/chrome/chrome.go` lines 260-276): one `Runtime.Evaluate`
command carrying the expression, then one `json.Unmarshal` of the returned
value into a Go string. The first component lists the expressions sent over
the transport (the source sends the expression exactly once and never
retries). -/
def evaluateRun (env : EvalEnv) (exp : String) : List String × Except String String :=
  match env.reply with
  | Except.error e => ([exp], Except.error e)
  | Except.ok v =>
    match unmarshalString v with
    | Except.error e => ([exp], Except.error e)
    | Except.ok s => ([exp], Except.ok s)

/-- Responses of the collaborators for one `Close` call: the transport close
(`b.conn.Close()`) and the forced process termination (`kill -9 <pid>`). -/
structure CloseEnv where
  connClose : Except String Unit
  kill : Except String Unit

/-- Externally visible steps of a `Close` call. `killProc` records the process
identifier the kill command was built from. -/
inductive CloseStep where
  | closeConn
  | killProc (pid : Nat)
deriving DecidableEq

/-- Shallow embedding of `Browser.Close` (`src/chrome.go` lines 57-72): close
the transport; if that fails, return the wrapped error immediately (the kill is
not reached in the source); otherwise run `kill -9` on the recorded pid and
return its wrapped error or success. -/
def closeRun (pid : Nat) (env : CloseEnv) : List CloseStep × Except String Unit :=
  match env.connClose with
  | Except.error e =>
    ([CloseStep.closeConn], Except.error ("close connection: " ++ e))
  | Except.ok _ =>
    match env.kill with
    | Except.error e =>
      ([CloseStep.closeConn, CloseStep.killProc pid],
        Except.error ("kill chrome process: " ++ e))
    | Except.ok _ =>
      ([CloseStep.closeConn, CloseStep.killProc pid], Except.ok ())

/-- Go zero value of the `window` struct: the bounds of a `Browser` before
calibration. -/
def zeroWindow : Window := { Top := 0, Bottom := 0, Left := 0, Right := 0 }

/-- Responses of the collaborators for one `Start` call, in the order the
source consumes them: process launch (`cmd.Start`, yielding the pid), devtools
endpooint resolution (`devt.Get`), transport dial (`rpcc.DialContext`), the two
domain activations, the blank-page navigation, and the two calibration
evaluations (window inner size and screen size, each already decoded into a
`Size` or failed). -/
structure StartEnv where
  launch : Except String Nat
  devtGet : Except String Unit
  dial : Except String Unit
  pageEnable : Except String Unit
  runtimeEnable : Except String Unit
  blankNav : NavEnv
  winSize : Except String Size
  screenSize : Except String Size

/-- Shallow embedding of `Browser.setupCoords` (`src/chrome.go` lines 216-233):
fetch the window size, then the screen size (each failure wrapped with its
context message), then overwrite the bounds. On failure the bounds `w` are left
unchanged, as in the source where `b.w` is only assigned after both fetches
succeed. -/
def setupCoords (winSize screenSize : Except String Size) (w : Window) :
    Window × Except String Unit :=
  match winSize with
  | Except.error e => (w, Except.error ("get window size: " ++ e))
  | Except.ok ws =>
    match screenSize with
    | Except.error e => (w, Except.error ("get screen size: " ++ e))
    | Except.ok ss =>
      ({ Top := ss.Height - ws.Height
         Bottom := ss.Height
         Left := 0
         Right := ss.Width }, Except.ok ())

/-- Steps of `Browser.Start` after the port reservation (`src/chrome.go` lines
100-152): launch, endpoint resolution, dial, `Page.Enable`, `Runtime.Enable`,
`Navigate("about:blank")`, then `b.setupCoords(ctx)` whose error value is
discarded by the source (line 150: the call's result is not checked), so the
run reports success even when calibration failed, with the bounds left at the
zero value. -/
def startSteps (env : StartEnv) : Window × Except String Unit :=
  match env.launch with
  | Except.error e => (zeroWindow, Except.error e)
  | Except.ok _pid =>
    match env.devtGet with
    | Except.error e => (zeroWindow, Except.error e)
    | Except.ok _ =>
      match env.dial with
      | Except.error e => (zeroWindow, Except.error e)
      | Except.ok _ =>
        match env.pageEnable with
        | Except.error e => (zeroWindow, Except.error e)
        | Except.ok _ =>
          match env.runtimeEnable with
          | Except.error e => (zeroWindow, Except.error e)
          | Except.ok _ =>
            match (navigateRun env.blankNav).2 with
            | Except.error e => (zeroWindow, Except.error e)
            | Except.ok _ =>
              ((setupCoords env.winSize env.screenSize zeroWindow).1, Except.ok ())

/-- Result of one `Start` call: the process-wide `_port` value afterwards, the
browser's bounds afterwards, and the returned error or success. -/
structure StartOut where
  port : Nat
  w : Window
  res : Except String Unit

/-- Shallow embedding of `Browser.Start` (`src/chrome.go` lines 74-153)
together with the process-wide `_port` variable (lines 23-24, 92-99): if
`_port` is zero it is set to 9000 and the startup steps run; otherwise the
call returns the reservation error at once, before any external step, and the
state is unchanged. Nothing in the program ever resets `_port` to zero. -/
def startRun (env : StartEnv) (port : Nat) : StartOut :=
  if port = 0 then
    { port := 9000, w := (startSteps env).1, res := (startSteps env).2 }
  else
    { port := port, w := zeroWindow, res := Except.error "port is reserved" }

/-- Boolean success test on an `Except` result. -/
def okB {α : Type} : Except String α → Bool
  | Except.ok _ => true
  | Except.error _ => false

/-- Start environment in which every step through the blank-page navigation
succeeds (calibration responses are irrelevant to `Start`'s result because the
source discards the calibration error). -/
def healthyStart (e : StartEnv) : Bool :=
  okB e.launch && okB e.devtGet && okB e.dial && okB e.pageEnable &&
    okB e.runtimeEnable && okB e.blankNav.subscribe && okB e.blankNav.navCmd &&
    okB e.blankNav.recv

/-- One process-lifetime operation touching the shared `_port` state: a
`Start` call with its environment, or a `Close` call on a browser with the
given recorded pid. `Close` (`src/chrome.go` lines 57-72) never touches
`_port`. -/
inductive Op where
  | start (env : StartEnv)
  | close (pid : Nat) (env : CloseEnv)

/-- The `_port` value after executing a list of operations from state `s`.
Only `Start` can change it (`Close` does not mention `_port` in the source). -/
def portAfter : List Op → Nat → Nat
  | [], s => s
  | Op.start e :: ops, s => portAfter ops (startRun e s).port
  | Op.close _ _ :: ops, s => portAfter ops s

/-- Whether a list of operations contains at least one `Start` call. -/
def containsStart : List Op → Bool
  | [] => false
  | Op.start _ :: _ => true
  | Op.close _ _ :: ops => containsStart ops

/-- Number of `Start` calls in the list that return success, executing from
`_port` state `s`. -/
def successfulStarts : List Op → Nat → Nat
  | [], _ => 0
  | Op.start e :: ops, s =>
      (if okB (startRun e s).res then 1 else 0) +
        successfulStarts ops (startRun e s).port
  | Op.close _ _ :: ops, s => successfulStarts ops s

/-- Navigation environment in which all three transport interactions succeed. -/
def navEnvOk : NavEnv :=
  { subscribe := Except.ok (), navCmd := Except.ok (), recv := Except.ok () }

/-- Start environment in which every collaborator response succeeds. -/
def startEnvOk : StartEnv :=
  { launch := Except.ok 4242
    devtGet := Except.ok ()
    dial := Except.ok ()
    pageEnable := Except.ok ()
    runtimeEnable := Except.ok ()
    blankNav := navEnvOk
    winSize := Except.ok { Width := 1920, Height := 1000 }
    screenSize := Except.ok { Width := 1920, Height := 1080 } }

/-- Start environment whose process launch fails. -/
def startEnvLaunchFail : StartEnv :=
  { startEnvOk with launch := Except.error "exec failed" }

/-- Start environment in which everything up to calibration succeeds but the
window-size evaluation fails. -/
def startEnvCalibFail : StartEnv :=
  { startEnvOk with winSize := Except.error "ws closed" }

/-- Close environment in which both teardown steps succeed. -/
def closeEnvOk : CloseEnv := { connClose := Except.ok (), kill := Except.ok () }

/-- On nonnegative rationals, Go's truncating conversion agrees with the floor. -/
theorem goInt_eq_floor {q : ℚ} (h : 0 ≤ q) : goInt q = ⌊q⌋ := by
  rw [Rat.floor_def, goInt, Int.tdiv_eq_ediv (Rat.num_nonneg.mpr h) (Int.ofNat_nonneg q.den)]

/-- On nonpositive rationals, Go's truncating conversion rounds up: it is the
negated floor of the negation. -/
theorem goInt_eq_neg_floor_neg {q : ℚ} (h : q ≤ 0) : goInt q = -⌊-q⌋ := by
  have h2 : goInt q = -goInt (-q) := by
    rw [goInt, goInt, Rat.neg_num, Rat.neg_den, Int.neg_tdiv, neg_neg]
  rw [h2, goInt_eq_floor (neg_nonneg.mpr h)]

/-- Truncation toward zero is monotone. -/
theorem goInt_mono {p q : ℚ} (h : p ≤ q) : goInt p ≤ goInt q := by
  rcases le_or_lt 0 p with hp | hp
  · rw [goInt_eq_floor hp, goInt_eq_floor (hp.trans h)]
    exact Int.floor_mono h
  · rcases le_or_lt 0 q with hq | hq
    · rw [goInt_eq_neg_floor_neg hp.le, goInt_eq_floor hq]
      have h1 : (0:ℤ) ≤ ⌊-p⌋ := Int.floor_nonneg.mpr (by linarith)
      have h2 : (0:ℤ) ≤ ⌊q⌋ := Int.floor_nonneg.mpr hq
      omega
    · rw [goInt_eq_neg_floor_neg hp.le, goInt_eq_neg_floor_neg hq.le]
      have h3 := Int.floor_mono (neg_le_neg h)
      omega

/-- An `Except` passes the boolean success test exactly when it is an `ok`. -/
theorem okB_iff {α : Type} (x : Except String α) :
    okB x = true ↔ ∃ a, x = Except.ok a := by
  cases x <;> simp [okB]

/-- In a healthy environment every startup step succeeds. -/
theorem startSteps_ok_of_healthy (e : StartEnv) (h : healthyStart e = true) :
    (startSteps e).2 = Except.ok () := by
  rcases e with ⟨l, dg, di, pe, re, bn, ws, ss⟩
  rcases bn with ⟨sub, cmd, rcv⟩
  simp only [healthyStart, Bool.and_eq_true] at h
  obtain ⟨⟨⟨⟨⟨⟨⟨h1, h2⟩, h3⟩, h4⟩, h5⟩, h6⟩, h7⟩, h8⟩ := h
  obtain ⟨_, rfl⟩ := (okB_iff _).mp h1
  obtain ⟨_, rfl⟩ := (okB_iff _).mp h2
  obtain ⟨_, rfl⟩ := (okB_iff _).mp h3
  obtain ⟨_, rfl⟩ := (okB_iff _).mp h4
  obtain ⟨_, rfl⟩ := (okB_iff _).mp h5
  obtain ⟨_, rfl⟩ := (okB_iff _).mp h6
  obtain ⟨_, rfl⟩ := (okB_iff _).mp h7
  obtain ⟨_, rfl⟩ := (okB_iff _).mp h8
  simp [startSteps, navigateRun]

/-- The `_port` state after a `Start` call: set to 9000 if it was free,
unchanged otherwise. -/
theorem startRun_port (e : StartEnv) (s : Nat) :
    (startRun e s).port = if s = 0 then 9000 else s := by
  unfold startRun
  split <;> rfl

/-- A `Start` call on a nonzero `_port` state fails immediately with the
reservation error and leaves everything unchanged, whatever the environment. -/
theorem startRun_reserved (e : StartEnv) (s : Nat) (h : s ≠ 0) :
    startRun e s =
      { port := s, w := zeroWindow, res := Except.error "port is reserved" } := by
  unfold startRun
  rw [if_neg h]

/-- A nonzero `_port` state stays nonzero across any sequence of operations. -/
theorem portAfter_ne_zero (ops : List Op) (s : Nat) (h : s ≠ 0) :
    portAfter ops s ≠ 0 := by
  induction ops generalizing s with
  | nil => exact h
  | cons op ops ih =>
    cases op with
    | start e =>
      show portAfter ops (startRun e s).port ≠ 0
      apply ih
      rw [startRun_port, if_neg h]
      exact h
    | close p ce => exact ih s h

/-- Once any `Start` call has executed, the `_port` state is nonzero forever. -/
theorem portAfter_ne_zero_of_containsStart (ops : List Op)
    (h : containsStart ops = true) : portAfter ops 0 ≠ 0 := by
  induction ops with
  | nil => simp [containsStart] at h
  | cons op ops ih =>
    cases op with
    | start e =>
      show portAfter ops (startRun e 0).port ≠ 0
      apply portAfter_ne_zero
      rw [startRun_port]
      simp
    | close p ce => exact ih (by simpa [containsStart] using h)

/-- From a nonzero `_port` state, no `Start` call can ever succeed. -/
theorem successfulStarts_eq_zero (ops : List Op) (s : Nat) (h : s ≠ 0) :
    successfulStarts ops s = 0 := by
  induction ops generalizing s with
  | nil => rfl
  | cons op ops ih =>
    cases op with
    | start e =>
      show (if okB (startRun e s).res then 1 else 0) +
          successfulStarts ops (startRun e s).port = 0
      rw [startRun_reserved e s h]
      simp only [okB, Bool.false_eq_true, if_false, Nat.zero_add]
      exact ih s h
    | close p ce => exact ih s h

/-- Over a whole process lifetime, at most one `Start` call succeeds. -/
theorem successfulStarts_le_one (ops : List Op) : successfulStarts ops 0 ≤ 1 := by
  induction ops with
  | nil => simp [successfulStarts]
  | cons op ops ih =>
    cases op with
    | start e =>
      show (if okB (startRun e 0).res then 1 else 0) +
          successfulStarts ops (startRun e 0).port ≤ 1
      have hp : (startRun e 0).port = 9000 := by rw [startRun_port]; rfl
      rw [hp, successfulStarts_eq_zero ops 9000 (by omega)]
      split <;> omega
    | close p ce => exact ih

/-- The mapping returns the y-axis error exactly when the truncated mapped y
lies outside the truncated vertical bounds. -/
theorem getIntCoordinates_yErr_iff (b : Window) (rect : DOMRect) :
    getIntCoordinates b rect =
        Except.error "y coordinate is not between the top and bottom of the screen" ↔
      (goInt (rect.Y + rect.Height / 2 + b.Top) < goInt b.Top ∨
        goInt b.Bottom < goInt (rect.Y + rect.Height / 2 + b.Top)) := by
  unfold getIntCoordinates
  dsimp only
  split_ifs with h1 h2
  · simpa using h1
  · simp only [Except.error.injEq]
    constructor
    · intro hc
      exact absurd hc (by decide)
    · intro hc
      exact absurd hc h1
  · constructor
    · intro hc
      exact hc.elim
    · intro hc
      exact absurd hc h1

/-- The mapping returns the x-axis error exactly when the truncated mapped y is
inside the vertical bounds but the truncated x lies outside the truncated
horizontal bounds (the source checks y first). -/
theorem getIntCoordinates_xErr_iff (b : Window) (rect : DOMRect) :
    getIntCoordinates b rect =
        Except.error "x coordinate is not between the left and right of the screen" ↔
      ((goInt b.Top ≤ goInt (rect.Y + rect.Height / 2 + b.Top) ∧
        goInt (rect.Y + rect.Height / 2 + b.Top) ≤ goInt b.Bottom) ∧
       (goInt (rect.X + rect.Width / 2) < goInt b.Left ∨
        goInt b.Right < goInt (rect.X + rect.Width / 2))) := by
  unfold getIntCoordinates
  dsimp only
  split_ifs with h1 h2
  · simp only [Except.error.injEq]
    constructor
    · intro hc
      exact absurd hc (by decide)
    · intro hc
      rcases hc with ⟨⟨hy1, hy2⟩, _⟩
      rcases h1 with h1 | h1 <;> omega
  · push_neg at h1
    constructor
    · intro _
      exact ⟨h1, h2⟩
    · intro _
      rfl
  · push_neg at h1 h2
    constructor
    · intro hc
      exact hc.elim
    · intro hc
      rcases hc with ⟨_, hx⟩
      rcases hx with hx | hx <;> omega

/-- The mapping succeeds exactly when both truncated coordinates are inside the
truncated bounds, and then returns the truncated pair. -/
theorem getIntCoordinates_ok (b : Window) (rect : DOMRect)
    (hy1 : goInt b.Top ≤ goInt (rect.Y + rect.Height / 2 + b.Top))
    (hy2 : goInt (rect.Y + rect.Height / 2 + b.Top) ≤ goInt b.Bottom)
    (hx1 : goInt b.Left ≤ goInt (rect.X + rect.Width / 2))
    (hx2 : goInt (rect.X + rect.Width / 2) ≤ goInt b.Right) :
    getIntCoordinates b rect =
      Except.ok (goInt (rect.X + rect.Width / 2),
        goInt (rect.Y + rect.Height / 2 + b.Top)) := by
  unfold getIntCoordinates
  rw [if_neg (by omega), if_neg (by omega)]

/-- Concrete truncation value used in the scenario proofs. -/
theorem goInt_0 : goInt (0:ℚ) = 0 := rfl

/-- Concrete truncation value used in the scenario proofs. -/
theorem goInt_80 : goInt ((1080:ℚ) - 1000) = 80 := by
  rw [goInt_eq_floor (by norm_num)]
  norm_num

/-- Concrete truncation value used in the scenario proofs. -/
theorem goInt_1080 : goInt (1080:ℚ) = 1080 := by
  rw [goInt_eq_floor (by norm_num)]
  norm_num

/-- Concrete truncation value used in the scenario proofs. -/
theorem goInt_1920 : goInt (1920:ℚ) = 1920 := by
  rw [goInt_eq_floor (by norm_num)]
  norm_num

/-- C1: for every viewport geometry calibrated with Deadzone = screenHeight -
windowInnerHeight and every element whose viewport center (x, y) satisfies
Deadzone ≤ y + Deadzone ≤ screenHeight and 0 ≤ x ≤ screenWidth, the
viewport-to-screen mapping `getIntCoordinates` succeeds and returns the pair
obtained from (x, y + Deadzone) by the documented conversion policy,
truncation toward zero (`goInt`). -/
theorem getIntCoordinates_in_bounds_ok (s w : Size) (rect : DOMRect)
    (hy1 : s.Height - w.Height ≤ rect.Y + rect.Height / 2 + (s.Height - w.Height))
    (hy2 : rect.Y + rect.Height / 2 + (s.Height - w.Height) ≤ s.Height)
    (hx1 : 0 ≤ rect.X + rect.Width / 2)
    (hx2 : rect.X + rect.Width / 2 ≤ s.Width) :
    getIntCoordinates (setupCoordsWindow s w) rect =
      Except.ok (goInt (rect.X + rect.Width / 2),
        goInt (rect.Y + rect.Height / 2 + (s.Height - w.Height))) :=
  getIntCoordinates_ok (setupCoordsWindow s w) rect (goInt_mono hy1)
    (goInt_mono hy2) (goInt_mono hx1) (goInt_mono hx2)

/-- C1 witness: screen 100 by 50, window inner size 100 by 40 (deadzone 10),
rect (0, 0, 2, 2) with center (1, 1); the mapping succeeds. -/
theorem getIntCoordinates_in_bounds_ok_witness :
    getIntCoordinates (setupCoordsWindow ⟨100, 50⟩ ⟨100, 40⟩) ⟨0, 0, 2, 2⟩ =
      Except.ok (goInt ((0:ℚ) + 2 / 2), goInt ((0:ℚ) + 2 / 2 + ((50:ℚ) - 40))) :=
  getIntCoordinates_in_bounds_ok ⟨100, 50⟩ ⟨100, 40⟩ ⟨0, 0, 2, 2⟩
    (by norm_num) (by norm_num) (by norm_num) (by norm_num)

/-- C2 counterexample: the viewport point with x = -1/2 lies strictly outside
[0, screenWidth], yet the mapping succeeds, because Go truncation maps -1/2 to
0, which passes the integer bounds check. Viewport: screen 1920 by 1080, inner
window 1920 by 1000; rect (-3, 10, 5, 0) has center (-1/2, 10), mapped to
(-1/2, 90). This refutes the claim that every point with x outside
[0, screenWidth] fails with an out-of-bounds error. -/
theorem out_of_range_point_succeeds :
    ((⟨-3, 10, 5, 0⟩ : DOMRect).X + (⟨-3, 10, 5, 0⟩ : DOMRect).Width / 2 < 0) ∧
    getIntCoordinates (setupCoordsWindow ⟨1920, 1080⟩ ⟨1920, 1000⟩)
        ⟨-3, 10, 5, 0⟩ = Except.ok (0, 90) := by
  constructor
  · norm_num
  · have hx : goInt ((-3:ℚ) + 5 / 2) = 0 := by
      rw [goInt_eq_neg_floor_neg (by norm_num)]
      norm_num
    have hy : goInt ((10:ℚ) + 0 / 2 + ((1080:ℚ) - 1000)) = 90 := by
      rw [goInt_eq_floor (by norm_num)]
      norm_num
    unfold getIntCoordinates setupCoordsWindow
    dsimp only
    rw [hx, hy, goInt_0, goInt_80, goInt_1080, goInt_1920]
    norm_num

/-- C2 (amended): the out-of-bounds check compares the truncated values. The
mapping returns the y-axis error message iff the truncated mapped y lies
outside [int(Top), int(Bottom)]; it returns the x-axis error message iff y
passes and the truncated x lies outside [int(Left), int(Right)] (y is checked
first); the constant messages identify the violating axis but carry no value.
For scenario B (viewport 1920 by 1080 with inner window 1920 by 1000, rect
(-50, 10, 20, 10), center (-40, 15), mapped (-40, 95)) the call fails with the
x-axis error. -/
theorem getIntCoordinates_error_characterization (b : Window) (rect : DOMRect) :
    (getIntCoordinates b rect =
        Except.error "y coordinate is not between the top and bottom of the screen" ↔
      (goInt (rect.Y + rect.Height / 2 + b.Top) < goInt b.Top ∨
        goInt b.Bottom < goInt (rect.Y + rect.Height / 2 + b.Top))) ∧
    (getIntCoordinates b rect =
        Except.error "x coordinate is not between the left and right of the screen" ↔
      ((goInt b.Top ≤ goInt (rect.Y + rect.Height / 2 + b.Top) ∧
        goInt (rect.Y + rect.Height / 2 + b.Top) ≤ goInt b.Bottom) ∧
       (goInt (rect.X + rect.Width / 2) < goInt b.Left ∨
        goInt b.Right < goInt (rect.X + rect.Width / 2)))) ∧
    getIntCoordinates (setupCoordsWindow ⟨1920, 1080⟩ ⟨1920, 1000⟩)
        ⟨-50, 10, 20, 10⟩ =
      Except.error "x coordinate is not between the left and right of the screen" := by
  refine ⟨getIntCoordinates_yErr_iff b rect, getIntCoordinates_xErr_iff b rect, ?_⟩
  have hx : goInt ((-50:ℚ) + 20 / 2) = -40 := by
    rw [goInt_eq_neg_floor_neg (by norm_num)]
    norm_num
  have hy : goInt ((10:ℚ) + 10 / 2 + ((1080:ℚ) - 1000)) = 95 := by
    rw [goInt_eq_floor (by norm_num)]
    norm_num
  unfold getIntCoordinates setupCoordsWindow
  dsimp only
  rw [hx, hy, goInt_0, goInt_80, goInt_1080, goInt_1920]
  norm_num

/-- C8: scenario A of the spec. The viewport with screen 1920 by 1080 and
inner window 1920 by 1000 calibrates to Deadzone Top = 80 and bounds
Bottom = 1080, Left = 0, Right = 1920; the rect (860, 10, 200, 50) has center
(960, 35) and maps to the valid screen point (960, 115). -/
theorem scenarioA_mapping :
    setupCoordsWindow ⟨1920, 1080⟩ ⟨1920, 1000⟩ =
      { Top := 80, Bottom := 1080, Left := 0, Right := 1920 } ∧
    specElementCenter ⟨860, 10, 200, 50⟩ = (960, 35) ∧
    getIntCoordinates (setupCoordsWindow ⟨1920, 1080⟩ ⟨1920, 1000⟩)
        ⟨860, 10, 200, 50⟩ = Except.ok (960, 115) := by
  refine ⟨?_, ?_, ?_⟩
  · unfold setupCoordsWindow
    norm_num
  · unfold specElementCenter
    norm_num
  · have hx : goInt ((860:ℚ) + 200 / 2) = 960 := by
      rw [goInt_eq_floor (by norm_num)]
      norm_num
    have hy : goInt ((10:ℚ) + 50 / 2 + ((1080:ℚ) - 1000)) = 115 := by
      rw [goInt_eq_floor (by norm_num)]
      norm_num
    unfold getIntCoordinates setupCoordsWindow
    dsimp only
    rw [hx, hy, goInt_0, goInt_80, goInt_1080, goInt_1920]
    norm_num

/-- C9: for every element rectangle with nonnegative width and height, the
code's coordinate computation `getCoords` is exactly the spec's element center
(x + width/2, y + height/2) in viewport space, with the deadzone offset added
to the vertical component only afterwards. -/
theorem getCoords_factors_through_elementCenter (b : Window) (rect : DOMRect)
    (_hw : 0 ≤ rect.Width) (_hh : 0 ≤ rect.Height) :
    getCoords b rect =
      ((specElementCenter rect).1, (specElementCenter rect).2 + b.Top) := rfl

/-- C9 witness: the factorization at a concrete window and rectangle. -/
theorem getCoords_factors_through_elementCenter_witness :
    getCoords { Top := 80, Bottom := 1080, Left := 0, Right := 1920 }
        ⟨860, 10, 200, 50⟩ =
      ((specElementCenter ⟨860, 10, 200, 50⟩).1,
        (specElementCenter ⟨860, 10, 200, 50⟩).2 + 80) :=
  getCoords_factors_through_elementCenter _ ⟨860, 10, 200, 50⟩
    (by norm_num) (by norm_num)

/-- C3: the debugging-port reservation is process-wide mutually exclusive
state. Of two `Start` calls contending for the debugging port, with the first
running in an environment whose startup steps all succeed, the first succeeds
and the second returns the port-reservation error; the failing call returns
that error with the state unchanged for every environment, i.e. immediately
and without attempting or retrying any external step. -/
theorem start_port_mutual_exclusion (e1 : StartEnv) (h : healthyStart e1 = true) :
    (startRun e1 0).res = Except.ok () ∧
    ∀ e2 : StartEnv, startRun e2 (startRun e1 0).port =
      { port := (startRun e1 0).port, w := zeroWindow,
        res := Except.error "port is reserved" } := by
  have hp : (startRun e1 0).port = 9000 := by
    rw [startRun_port]
    rfl
  constructor
  · show (startRun e1 0).res = Except.ok ()
    unfold startRun
    rw [if_pos rfl]
    exact startSteps_ok_of_healthy e1 h
  · intro e2
    rw [hp]
    exact startRun_reserved e2 9000 (by omega)

/-- C3 witness: with every collaborator healthy, the first `Start` succeeds
and a second `Start` on the reserved port fails with the reservation error. -/
theorem start_port_mutual_exclusion_witness :
    (startRun startEnvOk 0).res = Except.ok () ∧
    startRun startEnvOk (startRun startEnvOk 0).port =
      { port := (startRun startEnvOk 0).port, w := zeroWindow,
        res := Except.error "port is reserved" } := by
  have h := start_port_mutual_exclusion startEnvOk rfl
  exact ⟨h.1, h.2 startEnvOk⟩

/-- C4: the startup sequence is not all-or-nothing. In an environment where
every step succeeds except calibration (the window-size evaluation fails, so
`setupCoords` returns the wrapped error), `Start` still returns success,
because the source discards the result of `b.setupCoords(ctx)`
(`src/chrome.go` line 150). This exhibits the divergence from the claim that
any failing step aborts startup. -/
theorem start_swallows_calibration_failure :
    (setupCoords startEnvCalibFail.winSize startEnvCalibFail.screenSize
        zeroWindow).2 = Except.error "get window size: ws closed" ∧
    (startRun startEnvCalibFail 0).res = Except.ok () := by
  constructor
  · rfl
  · rfl

/-- C5 counterexample: when the transport close fails, `Close` returns the
wrapped close error at once and the kill step is never attempted, refuting the
claim that both teardown steps are attempted and both failures reported. -/
theorem close_skips_kill_on_close_failure :
    closeRun 4242
        { connClose := Except.error "websocket already closed",
          kill := Except.ok () } =
      ([CloseStep.closeConn],
        Except.error "close connection: websocket already closed") ∧
    CloseStep.killProc 4242 ∉
      (closeRun 4242
        { connClose := Except.error "websocket already closed",
          kill := Except.ok () }).1 := by
  constructor
  · rfl
  · decide

/-- C5 (amended): `Close` first closes the transport; if that fails it returns
the wrapped close error without attempting the kill; if the close succeeds it
kills the process identified by the recorded pid and reports the wrapped kill
error if any; at most one failure is ever reported. -/
theorem close_order_and_error_reporting (pid : Nat) (env : CloseEnv) :
    ((closeRun pid env).1.head? = some CloseStep.closeConn) ∧
    (∀ e, env.connClose = Except.error e →
      closeRun pid env =
        ([CloseStep.closeConn], Except.error ("close connection: " ++ e))) ∧
    (env.connClose = Except.ok () →
      (closeRun pid env).1 = [CloseStep.closeConn, CloseStep.killProc pid]) ∧
    (∀ e, env.connClose = Except.ok () → env.kill = Except.error e →
      (closeRun pid env).2 = Except.error ("kill chrome process: " ++ e)) ∧
    (env.connClose = Except.ok () → env.kill = Except.ok () →
      (closeRun pid env).2 = Except.ok ()) := by
  rcases env with ⟨cc, k⟩
  cases cc <;> cases k <;> simp [closeRun]

/-- C5 witness: when the transport close succeeds and the kill fails, the
kill's wrapped error is reported. -/
theorem close_order_and_error_reporting_witness :
    (closeRun 7
        { connClose := Except.ok (),
          kill := Except.error "no such process" }).2 =
      Except.error ("kill chrome process: " ++ "no such process") :=
  (close_order_and_error_reporting 7
    { connClose := Except.ok (), kill := Except.error "no such process" }
    ).2.2.2.1 "no such process" rfl rfl

/-- C6: `Navigate` subscribes to the load-event stream strictly before issuing
the navigation command; it succeeds exactly when subscription, command and
receive all succeed, and then its trace is subscribe, command, one load event,
unsubscribe; it fails with the transport's error when the command is rejected
or the stream closes before a load event; and it never reports success without
exactly one received load event. -/
theorem navigate_subscribe_before_command (env : NavEnv) :
    ((navigateRun env).2 = Except.ok () ↔
      env.subscribe = Except.ok () ∧ env.navCmd = Except.ok () ∧
        env.recv = Except.ok ()) ∧
    ((navigateRun env).2 = Except.ok () →
      (navigateRun env).1 = [NavStep.subscribed, NavStep.commandIssued,
        NavStep.loadReceived, NavStep.unsubscribed]) ∧
    (NavStep.commandIssued ∈ (navigateRun env).1 →
      (navigateRun env).1.indexOf NavStep.subscribed <
        (navigateRun env).1.indexOf NavStep.commandIssued) ∧
    ((navigateRun env).2 = Except.ok () →
      (navigateRun env).1.count NavStep.loadReceived = 1) ∧
    (∀ e, env.subscribe = Except.ok () → env.navCmd = Except.error e →
      (navigateRun env).2 = Except.error e) ∧
    (∀ e, env.subscribe = Except.ok () → env.navCmd = Except.ok () →
      env.recv = Except.error e → (navigateRun env).2 = Except.error e) := by
  rcases env with ⟨s, c, r⟩
  cases s <;> cases c <;> cases r <;> simp [navigateRun]

/-- C6 witness: with a healthy transport, `Navigate` succeeds and its trace
contains exactly one received load event. -/
theorem navigate_subscribe_before_command_witness :
    (navigateRun navEnvOk).2 = Except.ok () ∧
    (navigateRun navEnvOk).1.count NavStep.loadReceived = 1 :=
  ⟨((navigate_subscribe_before_command navEnvOk).1).mpr ⟨rfl, rfl, rfl⟩,
    (navigate_subscribe_before_command navEnvOk).2.2.2.1 rfl⟩

/-- C7: `Evaluate` sends the expression over the transport exactly once (no
retry); it returns the decoded string exactly when the transport reply is a
JSON string; and it fails exactly when the transport call fails or the
returned value cannot be decoded as a string (a remote throw surfaces at this
interface as one of those two shapes, since the protocol reply then carries
the exception rather than a string result). -/
theorem evaluate_result_characterization (env : EvalEnv) (exp : String) :
    ((evaluateRun env exp).1 = [exp]) ∧
    (∀ s, (evaluateRun env exp).2 = Except.ok s ↔
      env.reply = Except.ok (JsonValue.jstr s)) ∧
    ((∃ e, (evaluateRun env exp).2 = Except.error e) ↔
      ((∃ e, env.reply = Except.error e) ∨
        ∃ v, env.reply = Except.ok v ∧ ∀ s, v ≠ JsonValue.jstr s)) := by
  rcases env with ⟨r⟩
  cases r with
  | error e => simp [evaluateRun]
  | ok v => cases v <;> simp [evaluateRun, unmarshalString]

/-- C7 witness: a JSON string reply decodes to that string. -/
theorem evaluate_result_characterization_witness :
    (evaluateRun { reply := Except.ok (JsonValue.jstr "1024") }
        "window.innerWidth").2 = Except.ok "1024" :=
  ((evaluate_result_characterization
    { reply := Except.ok (JsonValue.jstr "1024") } "window.innerWidth").2.1
      "1024").mpr rfl

/-- C10: the port reservation is never released. After any operation sequence
containing at least one `Start` call, including sequences where the reserving
`Start` itself failed and sequences containing `Close` calls, every further
`Start` returns the reservation error; and over any operation sequence from a
fresh process, at most one `Start` call ever succeeds. -/
theorem port_never_released (pre ops : List Op) (e : StartEnv)
    (h : containsStart pre = true) :
    (startRun e (portAfter pre 0)).res = Except.error "port is reserved" ∧
    successfulStarts ops 0 ≤ 1 := by
  constructor
  · rw [startRun_reserved e _ (portAfter_ne_zero_of_containsStart pre h)]
  · exact successfulStarts_le_one ops

/-- C10 witness: after a failed `Start` (launch error) followed by a `Close`,
a further `Start` still gets the reservation error; and a sequence of two
healthy `Start` calls yields at most one success. -/
theorem port_never_released_witness :
    (startRun startEnvOk
        (portAfter [Op.start startEnvLaunchFail, Op.close 4242 closeEnvOk] 0)).res =
      Except.error "port is reserved" ∧
    successfulStarts [Op.start startEnvOk, Op.start startEnvOk] 0 ≤ 1 :=
  port_never_released [Op.start startEnvLaunchFail, Op.close 4242 closeEnvOk]
    [Op.start startEnvOk, Op.start startEnvOk] startEnvOk rfl

end Goplay
